import Mathlib

set_option autoImplicit false

namespace Metasearch

/-- Model of a decoded Go JSON value (the `any` values produced by
`encoding/json`): strings, numbers, booleans, null, arrays (`[]any`) and keyed
mappings (`map[string]any`, modelled as an association list; Go's decoder never
produces duplicate keys). The normalization engine only ever type-asserts
number values (it never reads them as numbers), so their exact representation
is immaterial; we model them as `Int`. -/
inductive Json where
  | str : String → Json
  | num : Int → Json
  | bool : Bool → Json
  | null : Json
  | arr : List Json → Json
  | obj : List (String × Json) → Json

/-- Go type assertion `v.(map[string]any)` succeeds exactly on `obj`. -/
def Json.isObj : Json → Bool
  | .obj _ => true
  | _ => false

/-- Go type assertion `v.([]any)` succeeds exactly on `arr`. -/
def Json.isArr : Json → Bool
  | .arr _ => true
  | _ => false

/-- Go `SearchResult`: `Data interface{}` (a decoded JSON document, `nil`
modelled as `none`) plus the raw response text. -/
structure SearchResult where
  Data : Option Json
  Raw : String := ""

/-- Go `getString` (omniserp.go): look `key` up in the mapping and return the
value if present and a string, otherwise the empty string. -/
def getString (m : List (String × Json)) (key : String) : String :=
  match m.lookup key with
  | some (Json.str s) => s
  | _ => ""

/-- Go `OrganicResult`. -/
structure OrganicResult where
  Position : Nat := 0
  Title : String := ""
  Link : String := ""
  URL : String := ""
  Snippet : String := ""
  Domain : String := ""
  Date : String := ""
deriving DecidableEq

/-- Go `AnswerBox` (`Type` is a reserved word in Lean, hence `Type'`). -/
structure AnswerBox where
  Type' : String := ""
  Title : String := ""
  Answer : String := ""
  Snippet : String := ""
  Source : String := ""
  Link : String := ""
deriving DecidableEq

/-- Go `KnowledgeGraph`. `Attributes` is a `map[string]string` in the source;
no code modelled here ever writes it. -/
structure KnowledgeGraph where
  Title : String := ""
  Type' : String := ""
  Description : String := ""
  Source : String := ""
  ImageURL : String := ""
  Attributes : List (String × String) := []
deriving DecidableEq

/-- Go `RelatedSearch`. -/
structure RelatedSearch where
  Query : String := ""
  Link : String := ""
deriving DecidableEq

/-- Go `PeopleAlsoAsk`. -/
structure PeopleAlsoAsk where
  Question : String := ""
  Answer : String := ""
  Title : String := ""
  Link : String := ""
  Source : String := ""
deriving DecidableEq

/-- Go `NewsResult`. -/
structure NewsResult where
  Position : Nat := 0
  Title : String := ""
  Link : String := ""
  Source : String := ""
  Date : String := ""
  Snippet : String := ""
  ImageURL : String := ""
  Thumbnail : String := ""
deriving DecidableEq

/-- Go `ImageResult`. -/
structure ImageResult where
  Position : Nat := 0
  Title : String := ""
  ImageURL : String := ""
  Thumbnail : String := ""
  Source : String := ""
  SourceURL : String := ""
  Width : Nat := 0
  Height : Nat := 0
  IsProduct : Bool := false
deriving DecidableEq

/-- Go `VideoResult`; never written by the normalization engine. -/
structure VideoResult where
  Position : Nat := 0
  Title : String := ""
  Link : String := ""
  Channel : String := ""
  Platform : String := ""
  Duration : String := ""
  Date : String := ""
  Views : String := ""
  Thumbnail : String := ""
  Snippet : String := ""
deriving DecidableEq

/-- Go `PlaceResult`; never written by the normalization engine. `Rating`,
`Latitude` and `Longitude` are `float64` in the source; no code modelled here
ever writes them, so they are modelled as `Int`. -/
structure PlaceResult where
  Position : Nat := 0
  Title : String := ""
  PlaceID : String := ""
  DataID : String := ""
  Address : String := ""
  Phone : String := ""
  Website : String := ""
  Rating : Int := 0
  Reviews : Nat := 0
  Type' : String := ""
  Hours : String := ""
  Price : String := ""
  Latitude : Int := 0
  Longitude : Int := 0
  Thumbnail : String := ""
  Attributes : List (String × String) := []
deriving DecidableEq

/-- Go `ShoppingResult`; never written by the normalization engine. `Rating`
is `float64` in the source, modelled as `Int` (never written). -/
structure ShoppingResult where
  Position : Nat := 0
  Title : String := ""
  Link : String := ""
  ProductID : String := ""
  Price : String := ""
  OriginalPrice : String := ""
  Currency : String := ""
  Rating : Int := 0
  Reviews : Nat := 0
  Source : String := ""
  Delivery : String := ""
  Thumbnail : String := ""
  Images : List String := []
  InStock : Bool := false
deriving DecidableEq

/-- Go `ScholarResult`; never written by the normalization engine. -/
structure ScholarResult where
  Position : Nat := 0
  Title : String := ""
  Link : String := ""
  PublicationURL : String := ""
  Authors : List String := []
  Year : String := ""
  Source : String := ""
  Citations : Nat := 0
  Snippet : String := ""
  PDF : String := ""
deriving DecidableEq

/-- Go `SearchMetadata`. `TimeTaken` is `float64` in the source; no code
modelled here ever writes it, so it is modelled as `Int`. -/
structure SearchMetadata where
  Engine : String := ""
  Query : String := ""
  Location : String := ""
  Language : String := ""
  Country : String := ""
  TotalResults : Int := 0
  TimeTaken : Int := 0
deriving DecidableEq

/-- Go `NormalizedSearchResult`: the unified output schema. `Raw` holds the
pointer to the originating `SearchResult` (modelled by value, `nil` = `none`). -/
structure NormalizedSearchResult where
  OrganicResults : List OrganicResult := []
  AnswerBox : Option AnswerBox := none
  KnowledgeGraph : Option KnowledgeGraph := none
  RelatedSearches : List RelatedSearch := []
  PeopleAlsoAsk : List PeopleAlsoAsk := []
  NewsResults : List NewsResult := []
  ImageResults : List ImageResult := []
  VideoResults : List VideoResult := []
  PlaceResults : List PlaceResult := []
  ShoppingResults : List ShoppingResult := []
  ScholarResults : List ScholarResult := []
  Suggestions : List String := []
  SearchMetadata : SearchMetadata := {}
  Raw : Option SearchResult := none

/-- The errors the normalizer can return (omniserp.go builds them with
`fmt.Errorf`): "nil result or data", "unexpected data type: %T" and
"unsupported engine: %s". -/
inductive NormError where
  | nilResultOrData : NormError
  | unexpectedDataType : NormError
  | unsupportedEngine : String → NormError
deriving DecidableEq

/-- The loop shape shared by every collection extraction in omniserp.go:
`for i, item := range xs { if itemMap, ok := item.(map[string]any); ok {
out = append(out, mk(i, itemMap)) } }`. An element that is not a keyed
mapping is skipped but still advances the range index `i`. -/
def forEachObj {α : Type} (mk : Nat → List (String × Json) → α) :
    Nat → List Json → List α
  | _, [] => []
  | i, item :: rest =>
    match item with
    | Json.obj itemMap => mk i itemMap :: forEachObj mk (i + 1) rest
    | _ => forEachObj mk (i + 1) rest

/-- Element of `data["organic"]` in `normalizeSerperSearch`. -/
def serperOrganicItem (i : Nat) (itemMap : List (String × Json)) : OrganicResult :=
  { Position := i + 1
    Title := getString itemMap "title"
    Link := getString itemMap "link"
    URL := getString itemMap "link"
    Snippet := getString itemMap "snippet"
    Date := getString itemMap "date" }

/-- Element of `data["relatedSearches"]` in `normalizeSerperSearch`. -/
def serperRelatedItem (_i : Nat) (itemMap : List (String × Json)) : RelatedSearch :=
  { Query := getString itemMap "query" }

/-- Element of `data["peopleAlsoAsk"]` in `normalizeSerperSearch`. -/
def serperPaaItem (_i : Nat) (itemMap : List (String × Json)) : PeopleAlsoAsk :=
  { Question := getString itemMap "question"
    Answer := getString itemMap "answer"
    Title := getString itemMap "title"
    Link := getString itemMap "link" }

/-- The `AnswerBox` struct literal built from `data["answerBox"]` in
`normalizeSerperSearch`; it reads a `source` key. -/
def serperAnswerBox (answerBox : List (String × Json)) : AnswerBox :=
  { Type' := getString answerBox "type"
    Title := getString answerBox "title"
    Answer := getString answerBox "answer"
    Snippet := getString answerBox "snippet"
    Source := getString answerBox "source"
    Link := getString answerBox "link" }

/-- The `KnowledgeGraph` struct literal built from `data["knowledgeGraph"]` in
`normalizeSerperSearch`; the image key is `imageUrl`. -/
def serperKnowledgeGraph (kg : List (String × Json)) : KnowledgeGraph :=
  { Title := getString kg "title"
    Type' := getString kg "type"
    Description := getString kg "description"
    ImageURL := getString kg "imageUrl" }

/-- The `AnswerBox` struct literal built from `data["answer_box"]` in
`normalizeSerpAPISearch`; unlike the Serper table it reads no `source` key,
so `Source` keeps its zero value. -/
def serpapiAnswerBox (answerBox : List (String × Json)) : AnswerBox :=
  { Type' := getString answerBox "type"
    Title := getString answerBox "title"
    Answer := getString answerBox "answer"
    Snippet := getString answerBox "snippet"
    Link := getString answerBox "link" }

/-- The `KnowledgeGraph` struct literal built from `data["knowledge_graph"]`
in `normalizeSerpAPISearch`; the image key is `image`. -/
def serpapiKnowledgeGraph (kg : List (String × Json)) : KnowledgeGraph :=
  { Title := getString kg "title"
    Type' := getString kg "type"
    Description := getString kg "description"
    ImageURL := getString kg "image" }

/-- The search-parameters echo override, identical in both provider tables
(omniserp.go lines 241-246 and 353-358): the metadata query, location,
language and country are unconditionally replaced by the `q`, `location`,
`hl` and `gl` keys of the echo block. -/
def overrideMetadata (searchParams : List (String × Json))
    (md : SearchMetadata) : SearchMetadata :=
  { md with
    Query := getString searchParams "q"
    Location := getString searchParams "location"
    Language := getString searchParams "hl"
    Country := getString searchParams "gl" }

/-- The "Extract organic results" block of `normalizeSerperSearch`
(omniserp.go lines 178-191): `if organic, ok := data["organic"].([]any); ok
{ ... }`. -/
def serperStageOrganic (data : List (String × Json))
    (normalized : NormalizedSearchResult) : NormalizedSearchResult :=
  match data.lookup "organic" with
  | some (Json.arr organic) =>
      { normalized with
        OrganicResults := normalized.OrganicResults ++ forEachObj serperOrganicItem 0 organic }
  | _ => normalized

/-- The "Extract answer box" block of `normalizeSerperSearch` (lines 194-203). -/
def serperStageAnswerBox (data : List (String × Json))
    (normalized : NormalizedSearchResult) : NormalizedSearchResult :=
  match data.lookup "answerBox" with
  | some (Json.obj answerBox) =>
      { normalized with AnswerBox := some (serperAnswerBox answerBox) }
  | _ => normalized

/-- The "Extract knowledge graph" block of `normalizeSerperSearch`
(lines 206-213). -/
def serperStageKnowledgeGraph (data : List (String × Json))
    (normalized : NormalizedSearchResult) : NormalizedSearchResult :=
  match data.lookup "knowledgeGraph" with
  | some (Json.obj kg) =>
      { normalized with KnowledgeGraph := some (serperKnowledgeGraph kg) }
  | _ => normalized

/-- The "Extract related searches" block of `normalizeSerperSearch`
(lines 216-224). -/
def serperStageRelated (data : List (String × Json))
    (normalized : NormalizedSearchResult) : NormalizedSearchResult :=
  match data.lookup "relatedSearches" with
  | some (Json.arr related) =>
      { normalized with
        RelatedSearches := normalized.RelatedSearches ++ forEachObj serperRelatedItem 0 related }
  | _ => normalized

/-- The "Extract people also ask" block of `normalizeSerperSearch`
(lines 227-238). -/
def serperStagePaa (data : List (String × Json))
    (normalized : NormalizedSearchResult) : NormalizedSearchResult :=
  match data.lookup "peopleAlsoAsk" with
  | some (Json.arr paa) =>
      { normalized with
        PeopleAlsoAsk := normalized.PeopleAlsoAsk ++ forEachObj serperPaaItem 0 paa }
  | _ => normalized

/-- The "Extract search metadata" block of `normalizeSerperSearch`
(lines 241-246). -/
def serperStageParams (data : List (String × Json))
    (normalized : NormalizedSearchResult) : NormalizedSearchResult :=
  match data.lookup "searchParameters" with
  | some (Json.obj searchParams) =>
      { normalized with
        SearchMetadata := overrideMetadata searchParams normalized.SearchMetadata }
  | _ => normalized

/-- `normalizeSerperSearch` (omniserp.go lines 176-247): the six extraction
blocks applied in source order to the `normalized` record. -/
def normalizeSerperSearch (data : List (String × Json))
    (normalized : NormalizedSearchResult) : NormalizedSearchResult :=
  serperStageParams data
    (serperStagePaa data
      (serperStageRelated data
        (serperStageKnowledgeGraph data
          (serperStageAnswerBox data
            (serperStageOrganic data normalized)))))

/-- Element of `data["news"]` in `normalizeSerperNews`. -/
def serperNewsItem (i : Nat) (itemMap : List (String × Json)) : NewsResult :=
  { Position := i + 1
    Title := getString itemMap "title"
    Link := getString itemMap "link"
    Source := getString itemMap "source"
    Date := getString itemMap "date"
    Snippet := getString itemMap "snippet"
    ImageURL := getString itemMap "imageUrl"
    Thumbnail := getString itemMap "imageUrl" }

/-- `normalizeSerperNews` (omniserp.go lines 249-266). -/
def normalizeSerperNews (data : List (String × Json))
    (normalized : NormalizedSearchResult) : NormalizedSearchResult :=
  match data.lookup "news" with
  | some (Json.arr news) =>
      { normalized with
        NewsResults := normalized.NewsResults ++ forEachObj serperNewsItem 0 news }
  | _ => normalized

/-- Element of `data["images"]` in `normalizeSerperImages`. -/
def serperImagesItem (i : Nat) (itemMap : List (String × Json)) : ImageResult :=
  { Position := i + 1
    Title := getString itemMap "title"
    ImageURL := getString itemMap "imageUrl"
    Thumbnail := getString itemMap "imageUrl"
    Source := getString itemMap "source"
    SourceURL := getString itemMap "link" }

/-- `normalizeSerperImages` (omniserp.go lines 268-283). -/
def normalizeSerperImages (data : List (String × Json))
    (normalized : NormalizedSearchResult) : NormalizedSearchResult :=
  match data.lookup "images" with
  | some (Json.arr images) =>
      { normalized with
        ImageResults := normalized.ImageResults ++ forEachObj serperImagesItem 0 images }
  | _ => normalized

/-- Element of `data["organic_results"]` in `normalizeSerpAPISearch`; reads the
same per-item keys as the Serper table. -/
def serpapiOrganicItem (i : Nat) (itemMap : List (String × Json)) : OrganicResult :=
  { Position := i + 1
    Title := getString itemMap "title"
    Link := getString itemMap "link"
    URL := getString itemMap "link"
    Snippet := getString itemMap "snippet"
    Date := getString itemMap "date" }

/-- Element of `data["related_searches"]` in `normalizeSerpAPISearch`; unlike
the Serper table it also reads `link`. -/
def serpapiRelatedItem (_i : Nat) (itemMap : List (String × Json)) : RelatedSearch :=
  { Query := getString itemMap "query"
    Link := getString itemMap "link" }

/-- Element of `data["related_questions"]` in `normalizeSerpAPISearch`; unlike
the Serper table it also reads `displayed_link` into `Source`. -/
def serpapiPaaItem (_i : Nat) (itemMap : List (String × Json)) : PeopleAlsoAsk :=
  { Question := getString itemMap "question"
    Answer := getString itemMap "answer"
    Title := getString itemMap "title"
    Link := getString itemMap "link"
    Source := getString itemMap "displayed_link" }

/-- The "Extract organic results" block of `normalizeSerpAPISearch`
(omniserp.go lines 289-302). -/
def serpapiStageOrganic (data : List (String × Json))
    (normalized : NormalizedSearchResult) : NormalizedSearchResult :=
  match data.lookup "organic_results" with
  | some (Json.arr organic) =>
      { normalized with
        OrganicResults := normalized.OrganicResults ++ forEachObj serpapiOrganicItem 0 organic }
  | _ => normalized

/-- The "Extract answer box" block of `normalizeSerpAPISearch`
(lines 305-313); it reads no `source` key. -/
def serpapiStageAnswerBox (data : List (String × Json))
    (normalized : NormalizedSearchResult) : NormalizedSearchResult :=
  match data.lookup "answer_box" with
  | some (Json.obj answerBox) =>
      { normalized with AnswerBox := some (serpapiAnswerBox answerBox) }
  | _ => normalized

/-- The "Extract knowledge graph" block of `normalizeSerpAPISearch`
(lines 316-323); the image key is `image`. -/
def serpapiStageKnowledgeGraph (data : List (String × Json))
    (normalized : NormalizedSearchResult) : NormalizedSearchResult :=
  match data.lookup "knowledge_graph" with
  | some (Json.obj kg) =>
      { normalized with KnowledgeGraph := some (serpapiKnowledgeGraph kg) }
  | _ => normalized

/-- The "Extract related searches" block of `normalizeSerpAPISearch`
(lines 326-335). -/
def serpapiStageRelated (data : List (String × Json))
    (normalized : NormalizedSearchResult) : NormalizedSearchResult :=
  match data.lookup "related_searches" with
  | some (Json.arr related) =>
      { normalized with
        RelatedSearches := normalized.RelatedSearches ++ forEachObj serpapiRelatedItem 0 related }
  | _ => normalized

/-- The "Extract people also ask" block of `normalizeSerpAPISearch`
(lines 338-350), keyed `related_questions`. -/
def serpapiStagePaa (data : List (String × Json))
    (normalized : NormalizedSearchResult) : NormalizedSearchResult :=
  match data.lookup "related_questions" with
  | some (Json.arr paa) =>
      { normalized with
        PeopleAlsoAsk := normalized.PeopleAlsoAsk ++ forEachObj serpapiPaaItem 0 paa }
  | _ => normalized

/-- The "Extract search metadata" block of `normalizeSerpAPISearch`
(lines 353-358). -/
def serpapiStageParams (data : List (String × Json))
    (normalized : NormalizedSearchResult) : NormalizedSearchResult :=
  match data.lookup "search_parameters" with
  | some (Json.obj searchParams) =>
      { normalized with
        SearchMetadata := overrideMetadata searchParams normalized.SearchMetadata }
  | _ => normalized

/-- `normalizeSerpAPISearch` (omniserp.go lines 287-359): the six extraction
blocks applied in source order. -/
def normalizeSerpAPISearch (data : List (String × Json))
    (normalized : NormalizedSearchResult) : NormalizedSearchResult :=
  serpapiStageParams data
    (serpapiStagePaa data
      (serpapiStageRelated data
        (serpapiStageKnowledgeGraph data
          (serpapiStageAnswerBox data
            (serpapiStageOrganic data normalized)))))

/-- Element of `data["news_results"]` in `normalizeSerpAPINews`. The Go code
appends the record and then assigns `Thumbnail` only when
`itemMap["thumbnail"]` is a string; that is exactly `getString itemMap
"thumbnail"` (the field stays `""` otherwise). `ImageURL` is never written. -/
def serpapiNewsItem (i : Nat) (itemMap : List (String × Json)) : NewsResult :=
  { Position := i + 1
    Title := getString itemMap "title"
    Link := getString itemMap "link"
    Source := getString itemMap "source"
    Date := getString itemMap "date"
    Snippet := getString itemMap "snippet"
    Thumbnail := getString itemMap "thumbnail" }

/-- `normalizeSerpAPINews` (omniserp.go lines 361-381). -/
def normalizeSerpAPINews (data : List (String × Json))
    (normalized : NormalizedSearchResult) : NormalizedSearchResult :=
  match data.lookup "news_results" with
  | some (Json.arr news) =>
      { normalized with
        NewsResults := normalized.NewsResults ++ forEachObj serpapiNewsItem 0 news }
  | _ => normalized

/-- Element of `data["images_results"]` in `normalizeSerpAPIImages`. -/
def serpapiImagesItem (i : Nat) (itemMap : List (String × Json)) : ImageResult :=
  { Position := i + 1
    Title := getString itemMap "title"
    ImageURL := getString itemMap "original"
    Thumbnail := getString itemMap "thumbnail"
    Source := getString itemMap "source"
    SourceURL := getString itemMap "link" }

/-- `normalizeSerpAPIImages` (omniserp.go lines 383-398). -/
def normalizeSerpAPIImages (data : List (String × Json))
    (normalized : NormalizedSearchResult) : NormalizedSearchResult :=
  match data.lookup "images_results" with
  | some (Json.arr images) =>
      { normalized with
        ImageResults := normalized.ImageResults ++ forEachObj serpapiImagesItem 0 images }
  | _ => normalized

/-- Go `Normalizer`: holds only the engine name fixed at construction. -/
structure Normalizer where
  engineName : String
deriving DecidableEq

/-- Go `strings.ToLower`, modelled as a character-wise lower-casing of the
string (sufficient for the ASCII engine names this code compares against). -/
def strToLower (s : String) : String :=
  ⟨s.data.map Char.toLower⟩

/-- Go `NewNormalizer`: lower-cases the engine name. -/
def NewNormalizer (engineName : String) : Normalizer :=
  { engineName := strToLower engineName }

/-- Go `(*Normalizer).NormalizeSearch` (omniserp.go lines 82-110). A nil
`result` pointer or nil `Data` is an error; a non-mapping root is an error;
otherwise dispatch on the engine name, defaulting to an unsupported-engine
error. -/
def Normalizer.NormalizeSearch (n : Normalizer) (result : Option SearchResult)
    (query : String) : Except NormError NormalizedSearchResult :=
  match result with
  | none => .error .nilResultOrData
  | some r =>
    match r.Data with
    | none => .error .nilResultOrData
    | some d =>
      match d with
      | Json.obj data =>
        let normalized : NormalizedSearchResult :=
          { SearchMetadata := { Engine := n.engineName, Query := query }
            Raw := some r }
        if n.engineName = "serper" then
          .ok (normalizeSerperSearch data normalized)
        else if n.engineName = "serpapi" then
          .ok (normalizeSerpAPISearch data normalized)
        else
          .error (.unsupportedEngine n.engineName)
      | _ => .error .unexpectedDataType

/-- Go `(*Normalizer).NormalizeNews` (omniserp.go lines 113-141). -/
def Normalizer.NormalizeNews (n : Normalizer) (result : Option SearchResult)
    (query : String) : Except NormError NormalizedSearchResult :=
  match result with
  | none => .error .nilResultOrData
  | some r =>
    match r.Data with
    | none => .error .nilResultOrData
    | some d =>
      match d with
      | Json.obj data =>
        let normalized : NormalizedSearchResult :=
          { SearchMetadata := { Engine := n.engineName, Query := query }
            Raw := some r }
        if n.engineName = "serper" then
          .ok (normalizeSerperNews data normalized)
        else if n.engineName = "serpapi" then
          .ok (normalizeSerpAPINews data normalized)
        else
          .error (.unsupportedEngine n.engineName)
      | _ => .error .unexpectedDataType

/-- Go `(*Normalizer).NormalizeImages` (omniserp.go lines 144-172). -/
def Normalizer.NormalizeImages (n : Normalizer) (result : Option SearchResult)
    (query : String) : Except NormError NormalizedSearchResult :=
  match result with
  | none => .error .nilResultOrData
  | some r =>
    match r.Data with
    | none => .error .nilResultOrData
    | some d =>
      match d with
      | Json.obj data =>
        let normalized : NormalizedSearchResult :=
          { SearchMetadata := { Engine := n.engineName, Query := query }
            Raw := some r }
        if n.engineName = "serper" then
          .ok (normalizeSerperImages data normalized)
        else if n.engineName = "serpapi" then
          .ok (normalizeSerpAPIImages data normalized)
        else
          .error (.unsupportedEngine n.engineName)
      | _ => .error .unexpectedDataType

/-- Go `Engine` interface (cmd/mcp-omniserp/main.go): the registry itself only
calls the metadata accessors, so an engine value is modelled by them. -/
structure Engine where
  GetName : String
  GetVersion : String := ""
  GetSupportedTools : List String := []
deriving DecidableEq

/-- Go map assignment `m[k] = v` on the association-list model of
`map[string]Engine`: replace the binding of `k` if present, append otherwise.
(The list order is only bookkeeping; Go maps are unordered, see
`Registry.CanList`.) -/
def mapInsert (m : List (String × Engine)) (k : String) (v : Engine) :
    List (String × Engine) :=
  match m with
  | [] => [(k, v)]
  | (k', v') :: rest =>
      if k' = k then (k, v) :: rest else (k', v') :: mapInsert rest k v

/-- Go `Registry` (cmd/mcp-omniserp/main.go lines 335-338): wraps
`engines map[string]Engine`. -/
structure Registry where
  engines : List (String × Engine)

/-- Go `NewRegistry`. -/
def NewRegistry : Registry := { engines := [] }

/-- Go `(*Registry).Register`: `r.engines[engine.GetName()] = engine`. -/
def Registry.Register (r : Registry) (engine : Engine) : Registry :=
  { engines := mapInsert r.engines engine.GetName engine }

/-- Go `(*Registry).Get`: map lookup, returning `(engine, exists)`. -/
def Registry.Get (r : Registry) (name : String) : Option Engine :=
  r.engines.lookup name

/-- Go `(*Registry).List` builds its result with `for name := range r.engines`.
Go's map iteration order is unspecified (and deliberately randomized), so the
observable contract is a relation: the possible outputs are exactly the
permutations of the key set. -/
def Registry.CanList (r : Registry) (l : List String) : Prop :=
  l.Perm (r.engines.map Prod.fst)

/-- A sequence of `Register` calls, in order. -/
def registerAll (r : Registry) (es : List Engine) : Registry :=
  es.foldl Registry.Register r

/-- Specification-side shorthand: the engine most recently registered under
`name` in the call sequence `es` (`none` if none was). -/
def lastRegistered (es : List Engine) (name : String) : Option Engine :=
  es.reverse.find? (fun e => e.GetName = name)

/-! ### Specification-side logical content for the cross-provider claim

The spec speaks of "structurally equivalent input objects (same logical
content under each provider's own key/casing convention)". Following spec
§4.1, the logical content of a web-search response is what the union of the
two field-mapping tables can express; the two renderers below write one such
content under the Serper (camelCase) and SerpAPI (snake_case) conventions
respectively. -/

/-- One logical organic hit (same per-item keys in both conventions). -/
structure LogicalOrganic where
  title : String := ""
  link : String := ""
  snippet : String := ""
  date : String := ""

/-- Logical answer-box content (same per-field keys in both conventions). -/
structure LogicalAnswerBox where
  type' : String := ""
  title : String := ""
  answer : String := ""
  snippet : String := ""
  source : String := ""
  link : String := ""

/-- Logical knowledge-graph content (image key: `imageUrl` for Serper,
`image` for SerpAPI, per spec §4.1). -/
structure LogicalKnowledgeGraph where
  title : String := ""
  type' : String := ""
  description : String := ""
  image : String := ""

/-- One logical related-search suggestion. -/
structure LogicalRelatedSearch where
  query : String := ""
  link : String := ""

/-- One logical "people also ask" entry (source attribution key: generic
`source` for Serper, `displayed_link` for SerpAPI, per spec §4.1). -/
structure LogicalPaa where
  question : String := ""
  answer : String := ""
  title : String := ""
  link : String := ""
  source : String := ""

/-- Logical search-parameters echo block (same keys in both conventions). -/
structure LogicalSearchParams where
  q : String := ""
  location : String := ""
  hl : String := ""
  gl : String := ""

/-- The logical content of one web-search response. -/
structure LogicalSearchContent where
  organic : List LogicalOrganic := []
  answerBox : Option LogicalAnswerBox := none
  knowledgeGraph : Option LogicalKnowledgeGraph := none
  relatedSearches : List LogicalRelatedSearch := []
  peopleAlsoAsk : List LogicalPaa := []
  searchParameters : Option LogicalSearchParams := none

/-- An organic hit rendered as JSON (identical under both conventions). -/
def renderOrganicJson (o : LogicalOrganic) : Json :=
  Json.obj [("title", Json.str o.title), ("link", Json.str o.link),
    ("snippet", Json.str o.snippet), ("date", Json.str o.date)]

/-- A related-search entry rendered as JSON (identical under both
conventions). -/
def renderRelatedJson (s : LogicalRelatedSearch) : Json :=
  Json.obj [("query", Json.str s.query), ("link", Json.str s.link)]

/-- A people-also-ask entry rendered under the Serper convention (generic
`source` key). -/
def renderSerperPaaJson (p : LogicalPaa) : Json :=
  Json.obj [("question", Json.str p.question), ("answer", Json.str p.answer),
    ("title", Json.str p.title), ("link", Json.str p.link),
    ("source", Json.str p.source)]

/-- A people-also-ask entry rendered under the SerpAPI convention
(`displayed_link` key). -/
def renderSerpapiPaaJson (p : LogicalPaa) : Json :=
  Json.obj [("question", Json.str p.question), ("answer", Json.str p.answer),
    ("title", Json.str p.title), ("link", Json.str p.link),
    ("displayed_link", Json.str p.source)]

/-- Answer-box fields rendered as JSON (identical under both conventions). -/
def renderAnswerBoxFields (b : LogicalAnswerBox) : List (String × Json) :=
  [("type", Json.str b.type'), ("title", Json.str b.title),
   ("answer", Json.str b.answer), ("snippet", Json.str b.snippet),
   ("source", Json.str b.source), ("link", Json.str b.link)]

/-- Search-parameters echo fields rendered as JSON (identical under both
conventions). -/
def renderSearchParamsFields (sp : LogicalSearchParams) : List (String × Json) :=
  [("q", Json.str sp.q), ("location", Json.str sp.location),
   ("hl", Json.str sp.hl), ("gl", Json.str sp.gl)]

/-- A logical content rendered as a Serper (camelCase) response document. -/
def renderSerperDoc (c : LogicalSearchContent) : List (String × Json) :=
  [("organic", Json.arr (c.organic.map renderOrganicJson)),
   ("relatedSearches", Json.arr (c.relatedSearches.map renderRelatedJson)),
   ("peopleAlsoAsk", Json.arr (c.peopleAlsoAsk.map renderSerperPaaJson))]
  ++ (match c.answerBox with
      | some b => [("answerBox", Json.obj (renderAnswerBoxFields b))]
      | none => [])
  ++ (match c.knowledgeGraph with
      | some k => [("knowledgeGraph", Json.obj
          [("title", Json.str k.title), ("type", Json.str k.type'),
           ("description", Json.str k.description),
           ("imageUrl", Json.str k.image)])]
      | none => [])
  ++ (match c.searchParameters with
      | some sp => [("searchParameters", Json.obj (renderSearchParamsFields sp))]
      | none => [])

/-- The same logical content rendered as a SerpAPI (snake_case) response
document. -/
def renderSerpapiDoc (c : LogicalSearchContent) : List (String × Json) :=
  [("organic_results", Json.arr (c.organic.map renderOrganicJson)),
   ("related_searches", Json.arr (c.relatedSearches.map renderRelatedJson)),
   ("related_questions", Json.arr (c.peopleAlsoAsk.map renderSerpapiPaaJson))]
  ++ (match c.answerBox with
      | some b => [("answer_box", Json.obj (renderAnswerBoxFields b))]
      | none => [])
  ++ (match c.knowledgeGraph with
      | some k => [("knowledge_graph", Json.obj
          [("title", Json.str k.title), ("type", Json.str k.type'),
           ("description", Json.str k.description),
           ("image", Json.str k.image)])]
      | none => [])
  ++ (match c.searchParameters with
      | some sp => [("search_parameters", Json.obj (renderSearchParamsFields sp))]
      | none => [])

/-- Shorthand for the per-collection behaviour: the list produced from
`data[key]` when that key holds an array, and `[]` otherwise. -/
def arrSeg {α : Type} (mk : Nat → List (String × Json) → α)
    (data : List (String × Json)) (key : String) : List α :=
  match data.lookup key with
  | some (Json.arr l) => forEachObj mk 0 l
  | _ => []

/-- Shorthand for the per-block behaviour: `f` applied to `data[key]` when
that key holds a keyed mapping, the default otherwise. -/
def objSel {α : Type} (f : List (String × Json) → α) (dflt : α)
    (data : List (String × Json)) (key : String) : α :=
  match data.lookup key with
  | some (Json.obj m) => f m
  | _ => dflt

/-- The number of keyed-mapping elements of the array found at `data[key]`
(0 when the key is absent or its value is not an array). -/
def sourceObjCount (data : List (String × Json)) (key : String) : Nat :=
  match data.lookup key with
  | some (Json.arr items) => items.countP Json.isObj
  | _ => 0

/-! ### Helper lemmas -/

theorem forEachObj_length {α : Type} (mk : Nat → List (String × Json) → α) :
    ∀ (i : Nat) (l : List Json),
      (forEachObj mk i l).length = l.countP Json.isObj := by
  intro i l
  induction l generalizing i with
  | nil => rfl
  | cons x rest ih =>
      cases x <;> simp [forEachObj, List.countP_cons, Json.isObj, ih]

theorem forEachObj_map {α β : Type} (f : α → β)
    (mk : Nat → List (String × Json) → α) :
    ∀ (i : Nat) (l : List Json),
      (forEachObj mk i l).map f = forEachObj (fun j m => f (mk j m)) i l := by
  intro i l
  induction l generalizing i with
  | nil => rfl
  | cons x rest ih =>
      cases x <;> simp [forEachObj, ih]

theorem forEachObj_map_position {α : Type} (mk : Nat → List (String × Json) → α)
    (pos : α → Nat) (hmk : ∀ j m, pos (mk j m) = j + 1) :
    ∀ (i : Nat) (l : List Json), (∀ x ∈ l, x.isObj = true) →
      (forEachObj mk i l).map pos = List.range' (i + 1) l.length := by
  intro i l
  induction l generalizing i with
  | nil => intro _; rfl
  | cons x rest ih =>
      intro h
      cases x with
      | obj m =>
          have hrest : ∀ y ∈ rest, y.isObj = true :=
            fun y hy => h y (List.mem_cons_of_mem _ hy)
          simp [forEachObj, hmk, ih (i + 1) hrest, List.range'_succ]
      | str s => exact absurd (h _ (List.mem_cons_self _ _)) (by simp [Json.isObj])
      | num v => exact absurd (h _ (List.mem_cons_self _ _)) (by simp [Json.isObj])
      | bool b => exact absurd (h _ (List.mem_cons_self _ _)) (by simp [Json.isObj])
      | null => exact absurd (h _ (List.mem_cons_self _ _)) (by simp [Json.isObj])
      | arr a => exact absurd (h _ (List.mem_cons_self _ _)) (by simp [Json.isObj])

theorem arrSeg_length {α : Type} (mk : Nat → List (String × Json) → α)
    (data : List (String × Json)) (key : String) :
    (arrSeg mk data key).length = sourceObjCount data key := by
  unfold arrSeg sourceObjCount
  cases h : data.lookup key with
  | none => rfl
  | some j => cases j <;> simp [forEachObj_length]

theorem serperStageOrganic_eq (data : List (String × Json))
    (norm : NormalizedSearchResult) :
    serperStageOrganic data norm =
      { norm with
        OrganicResults := norm.OrganicResults ++ arrSeg serperOrganicItem data "organic" } := by
  unfold serperStageOrganic arrSeg
  cases h : data.lookup "organic" with
  | none => simp
  | some j => cases j <;> simp

theorem serperStageAnswerBox_eq (data : List (String × Json))
    (norm : NormalizedSearchResult) :
    serperStageAnswerBox data norm =
      { norm with
        AnswerBox := objSel (fun m => some (serperAnswerBox m)) norm.AnswerBox data "answerBox" } := by
  unfold serperStageAnswerBox objSel
  cases h : data.lookup "answerBox" with
  | none => simp
  | some j => cases j <;> simp

theorem serperStageKnowledgeGraph_eq (data : List (String × Json))
    (norm : NormalizedSearchResult) :
    serperStageKnowledgeGraph data norm =
      { norm with
        KnowledgeGraph := objSel (fun m => some (serperKnowledgeGraph m)) norm.KnowledgeGraph data "knowledgeGraph" } := by
  unfold serperStageKnowledgeGraph objSel
  cases h : data.lookup "knowledgeGraph" with
  | none => simp
  | some j => cases j <;> simp

theorem serperStageRelated_eq (data : List (String × Json))
    (norm : NormalizedSearchResult) :
    serperStageRelated data norm =
      { norm with
        RelatedSearches := norm.RelatedSearches ++ arrSeg serperRelatedItem data "relatedSearches" } := by
  unfold serperStageRelated arrSeg
  cases h : data.lookup "relatedSearches" with
  | none => simp
  | some j => cases j <;> simp

theorem serperStagePaa_eq (data : List (String × Json))
    (norm : NormalizedSearchResult) :
    serperStagePaa data norm =
      { norm with
        PeopleAlsoAsk := norm.PeopleAlsoAsk ++ arrSeg serperPaaItem data "peopleAlsoAsk" } := by
  unfold serperStagePaa arrSeg
  cases h : data.lookup "peopleAlsoAsk" with
  | none => simp
  | some j => cases j <;> simp

theorem serperStageParams_eq (data : List (String × Json))
    (norm : NormalizedSearchResult) :
    serperStageParams data norm =
      { norm with
        SearchMetadata := objSel (fun m => overrideMetadata m norm.SearchMetadata) norm.SearchMetadata data "searchParameters" } := by
  unfold serperStageParams objSel
  cases h : data.lookup "searchParameters" with
  | none => simp
  | some j => cases j <;> simp

theorem serpapiStageOrganic_eq (data : List (String × Json))
    (norm : NormalizedSearchResult) :
    serpapiStageOrganic data norm =
      { norm with
        OrganicResults := norm.OrganicResults ++ arrSeg serpapiOrganicItem data "organic_results" } := by
  unfold serpapiStageOrganic arrSeg
  cases h : data.lookup "organic_results" with
  | none => simp
  | some j => cases j <;> simp

theorem serpapiStageAnswerBox_eq (data : List (String × Json))
    (norm : NormalizedSearchResult) :
    serpapiStageAnswerBox data norm =
      { norm with
        AnswerBox := objSel (fun m => some (serpapiAnswerBox m)) norm.AnswerBox data "answer_box" } := by
  unfold serpapiStageAnswerBox objSel
  cases h : data.lookup "answer_box" with
  | none => simp
  | some j => cases j <;> simp

theorem serpapiStageKnowledgeGraph_eq (data : List (String × Json))
    (norm : NormalizedSearchResult) :
    serpapiStageKnowledgeGraph data norm =
      { norm with
        KnowledgeGraph := objSel (fun m => some (serpapiKnowledgeGraph m)) norm.KnowledgeGraph data "knowledge_graph" } := by
  unfold serpapiStageKnowledgeGraph objSel
  cases h : data.lookup "knowledge_graph" with
  | none => simp
  | some j => cases j <;> simp

theorem serpapiStageRelated_eq (data : List (String × Json))
    (norm : NormalizedSearchResult) :
    serpapiStageRelated data norm =
      { norm with
        RelatedSearches := norm.RelatedSearches ++ arrSeg serpapiRelatedItem data "related_searches" } := by
  unfold serpapiStageRelated arrSeg
  cases h : data.lookup "related_searches" with
  | none => simp
  | some j => cases j <;> simp

theorem serpapiStagePaa_eq (data : List (String × Json))
    (norm : NormalizedSearchResult) :
    serpapiStagePaa data norm =
      { norm with
        PeopleAlsoAsk := norm.PeopleAlsoAsk ++ arrSeg serpapiPaaItem data "related_questions" } := by
  unfold serpapiStagePaa arrSeg
  cases h : data.lookup "related_questions" with
  | none => simp
  | some j => cases j <;> simp

theorem serpapiStageParams_eq (data : List (String × Json))
    (norm : NormalizedSearchResult) :
    serpapiStageParams data norm =
      { norm with
        SearchMetadata := objSel (fun m => overrideMetadata m norm.SearchMetadata) norm.SearchMetadata data "search_parameters" } := by
  unfold serpapiStageParams objSel
  cases h : data.lookup "search_parameters" with
  | none => simp
  | some j => cases j <;> simp

/-- Full characterization of `normalizeSerperSearch` as one record update. -/
theorem normalizeSerperSearch_eq (data : List (String × Json))
    (norm : NormalizedSearchResult) :
    normalizeSerperSearch data norm =
      { norm with
        OrganicResults := norm.OrganicResults ++ arrSeg serperOrganicItem data "organic"
        AnswerBox := objSel (fun m => some (serperAnswerBox m)) norm.AnswerBox data "answerBox"
        KnowledgeGraph := objSel (fun m => some (serperKnowledgeGraph m)) norm.KnowledgeGraph data "knowledgeGraph"
        RelatedSearches := norm.RelatedSearches ++ arrSeg serperRelatedItem data "relatedSearches"
        PeopleAlsoAsk := norm.PeopleAlsoAsk ++ arrSeg serperPaaItem data "peopleAlsoAsk"
        SearchMetadata := objSel (fun m => overrideMetadata m norm.SearchMetadata) norm.SearchMetadata data "searchParameters" } := by
  rw [normalizeSerperSearch, serperStageOrganic_eq, serperStageAnswerBox_eq,
    serperStageKnowledgeGraph_eq, serperStageRelated_eq, serperStagePaa_eq,
    serperStageParams_eq]

/-- Full characterization of `normalizeSerpAPISearch` as one record update. -/
theorem normalizeSerpAPISearch_eq (data : List (String × Json))
    (norm : NormalizedSearchResult) :
    normalizeSerpAPISearch data norm =
      { norm with
        OrganicResults := norm.OrganicResults ++ arrSeg serpapiOrganicItem data "organic_results"
        AnswerBox := objSel (fun m => some (serpapiAnswerBox m)) norm.AnswerBox data "answer_box"
        KnowledgeGraph := objSel (fun m => some (serpapiKnowledgeGraph m)) norm.KnowledgeGraph data "knowledge_graph"
        RelatedSearches := norm.RelatedSearches ++ arrSeg serpapiRelatedItem data "related_searches"
        PeopleAlsoAsk := norm.PeopleAlsoAsk ++ arrSeg serpapiPaaItem data "related_questions"
        SearchMetadata := objSel (fun m => overrideMetadata m norm.SearchMetadata) norm.SearchMetadata data "search_parameters" } := by
  rw [normalizeSerpAPISearch, serpapiStageOrganic_eq, serpapiStageAnswerBox_eq,
    serpapiStageKnowledgeGraph_eq, serpapiStageRelated_eq, serpapiStagePaa_eq,
    serpapiStageParams_eq]

theorem normalizeSerperNews_eq (data : List (String × Json))
    (norm : NormalizedSearchResult) :
    normalizeSerperNews data norm =
      { norm with NewsResults := norm.NewsResults ++ arrSeg serperNewsItem data "news" } := by
  unfold normalizeSerperNews arrSeg
  cases h : data.lookup "news" with
  | none => simp
  | some j => cases j <;> simp

theorem normalizeSerpAPINews_eq (data : List (String × Json))
    (norm : NormalizedSearchResult) :
    normalizeSerpAPINews data norm =
      { norm with NewsResults := norm.NewsResults ++ arrSeg serpapiNewsItem data "news_results" } := by
  unfold normalizeSerpAPINews arrSeg
  cases h : data.lookup "news_results" with
  | none => simp
  | some j => cases j <;> simp

theorem normalizeSerperImages_eq (data : List (String × Json))
    (norm : NormalizedSearchResult) :
    normalizeSerperImages data norm =
      { norm with ImageResults := norm.ImageResults ++ arrSeg serperImagesItem data "images" } := by
  unfold normalizeSerperImages arrSeg
  cases h : data.lookup "images" with
  | none => simp
  | some j => cases j <;> simp

theorem normalizeSerpAPIImages_eq (data : List (String × Json))
    (norm : NormalizedSearchResult) :
    normalizeSerpAPIImages data norm =
      { norm with ImageResults := norm.ImageResults ++ arrSeg serpapiImagesItem data "images_results" } := by
  unfold normalizeSerpAPIImages arrSeg
  cases h : data.lookup "images_results" with
  | none => simp
  | some j => cases j <;> simp

theorem NormalizeSearch_serper_ok (data : List (String × Json)) (raw q : String) :
    (NewNormalizer "serper").NormalizeSearch
        (some { Data := some (Json.obj data), Raw := raw }) q =
      .ok (normalizeSerperSearch data
        { SearchMetadata := { Engine := "serper", Query := q }
          Raw := some { Data := some (Json.obj data), Raw := raw } }) := rfl

theorem NormalizeSearch_serpapi_ok (data : List (String × Json)) (raw q : String) :
    (NewNormalizer "serpapi").NormalizeSearch
        (some { Data := some (Json.obj data), Raw := raw }) q =
      .ok (normalizeSerpAPISearch data
        { SearchMetadata := { Engine := "serpapi", Query := q }
          Raw := some { Data := some (Json.obj data), Raw := raw } }) := rfl

theorem NormalizeNews_serper_ok (data : List (String × Json)) (raw q : String) :
    (NewNormalizer "serper").NormalizeNews
        (some { Data := some (Json.obj data), Raw := raw }) q =
      .ok (normalizeSerperNews data
        { SearchMetadata := { Engine := "serper", Query := q }
          Raw := some { Data := some (Json.obj data), Raw := raw } }) := rfl

theorem NormalizeNews_serpapi_ok (data : List (String × Json)) (raw q : String) :
    (NewNormalizer "serpapi").NormalizeNews
        (some { Data := some (Json.obj data), Raw := raw }) q =
      .ok (normalizeSerpAPINews data
        { SearchMetadata := { Engine := "serpapi", Query := q }
          Raw := some { Data := some (Json.obj data), Raw := raw } }) := rfl

theorem NormalizeImages_serper_ok (data : List (String × Json)) (raw q : String) :
    (NewNormalizer "serper").NormalizeImages
        (some { Data := some (Json.obj data), Raw := raw }) q =
      .ok (normalizeSerperImages data
        { SearchMetadata := { Engine := "serper", Query := q }
          Raw := some { Data := some (Json.obj data), Raw := raw } }) := rfl

theorem NormalizeImages_serpapi_ok (data : List (String × Json)) (raw q : String) :
    (NewNormalizer "serpapi").NormalizeImages
        (some { Data := some (Json.obj data), Raw := raw }) q =
      .ok (normalizeSerpAPIImages data
        { SearchMetadata := { Engine := "serpapi", Query := q }
          Raw := some { Data := some (Json.obj data), Raw := raw } }) := rfl

theorem lookup_mapInsert (m : List (String × Engine)) (k name : String)
    (v : Engine) :
    (mapInsert m k v).lookup name =
      if k = name then some v else m.lookup name := by
  induction m with
  | nil =>
      by_cases hn : name = k
      · subst hn; simp [mapInsert, List.lookup_cons]
      · have hb : (name == k) = false := beq_eq_false_iff_ne.mpr hn
        have hn' : ¬k = name := fun h => hn h.symm
        simp [mapInsert, List.lookup_cons, hb, hn']
  | cons p rest ih =>
      obtain ⟨k', v'⟩ := p
      by_cases hk : k' = k
      · subst hk
        by_cases hn : name = k'
        · subst hn; simp [mapInsert, List.lookup_cons]
        · have hb : (name == k') = false := beq_eq_false_iff_ne.mpr hn
          have hn' : ¬k' = name := fun h => hn h.symm
          simp [mapInsert, List.lookup_cons, hb, hn']
      · by_cases hn : name = k'
        · subst hn
          have hkn : ¬k = name := fun h => hk h.symm
          simp [mapInsert, hk, List.lookup_cons, hkn]
        · have hb : (name == k') = false := beq_eq_false_iff_ne.mpr hn
          simp [mapInsert, hk, List.lookup_cons, hb, ih]

theorem mem_keys_mapInsert (m : List (String × Engine)) (k a : String)
    (v : Engine) :
    a ∈ (mapInsert m k v).map Prod.fst ↔ a = k ∨ a ∈ m.map Prod.fst := by
  induction m with
  | nil => simp [mapInsert]
  | cons p rest ih =>
      obtain ⟨k', v'⟩ := p
      by_cases hk : k' = k
      · subst hk
        simp [mapInsert]
      · simp only [mapInsert, hk, if_false, List.map_cons, List.mem_cons, ih]
        tauto

theorem nodup_keys_mapInsert (m : List (String × Engine)) (k : String)
    (v : Engine) (h : (m.map Prod.fst).Nodup) :
    ((mapInsert m k v).map Prod.fst).Nodup := by
  induction m with
  | nil => simp [mapInsert]
  | cons p rest ih =>
      obtain ⟨k', v'⟩ := p
      simp only [List.map_cons, List.nodup_cons] at h
      by_cases hk : k' = k
      · subst hk
        simpa [mapInsert] using h
      · have h1 := ih h.2
        have h2 : k' ∉ (mapInsert rest k v).map Prod.fst := by
          rw [mem_keys_mapInsert]
          rintro (rfl | hmem)
          · exact hk rfl
          · exact h.1 hmem
        simp [mapInsert, hk, List.nodup_cons, h1, h2]

theorem lookup_isSome_iff_mem_keys (m : List (String × Engine)) (a : String) :
    (m.lookup a).isSome = true ↔ a ∈ m.map Prod.fst := by
  induction m with
  | nil => simp
  | cons p rest ih =>
      obtain ⟨k', v'⟩ := p
      by_cases hn : a = k'
      · subst hn; simp [List.lookup_cons]
      · have hb : (a == k') = false := beq_eq_false_iff_ne.mpr hn
        simp [List.lookup_cons, hb, hn, ih]

theorem Get_Register (r : Registry) (e : Engine) (name : String) :
    (r.Register e).Get name =
      if e.GetName = name then some e else r.Get name := by
  simp [Registry.Register, Registry.Get, lookup_mapInsert]

theorem Get_registerAll (es : List Engine) :
    ∀ (r : Registry) (name : String),
      (registerAll r es).Get name =
        match lastRegistered es name with
        | some e => some e
        | none => r.Get name := by
  induction es with
  | nil => intro r name; simp [registerAll, lastRegistered]
  | cons e es ih =>
      intro r name
      have step : registerAll r (e :: es) = registerAll (r.Register e) es := rfl
      rw [step, ih]
      have hlast : lastRegistered (e :: es) name =
          match lastRegistered es name with
          | some x => some x
          | none => if e.GetName = name then some e else none := by
        simp only [lastRegistered, List.reverse_cons, List.find?_append]
        cases hfind : List.find? (fun x => decide (x.GetName = name)) es.reverse with
        | none =>
            simp [Option.orElse, hfind, List.find?]
            by_cases hname : e.GetName = name <;> simp [hname]
        | some x => simp [Option.orElse, hfind]
      rw [hlast]
      cases hfind : lastRegistered es name with
      | some x => simp
      | none =>
          by_cases hname : e.GetName = name <;>
            simp [hname, Get_Register]

theorem nodup_keys_registerAll (es : List Engine) :
    ∀ (r : Registry), (r.engines.map Prod.fst).Nodup →
      ((registerAll r es).engines.map Prod.fst).Nodup := by
  induction es with
  | nil => intro r h; exact h
  | cons e es ih =>
      intro r h
      exact ih (r.Register e) (nodup_keys_mapInsert r.engines e.GetName e h)

/-- The two organic-result extraction loops read the same per-item keys. -/
theorem organicItem_serper_eq_serpapi : serperOrganicItem = serpapiOrganicItem := rfl

/-- On any source array, the Serper related-search loop produces exactly the
SerpAPI loop's output with `Link` erased (Serper's table never reads it). -/
theorem relatedLoop_link_erased (L : List Json) (i : Nat) :
    forEachObj serperRelatedItem i L =
      (forEachObj serpapiRelatedItem i L).map
        (fun x => { x with Link := "" }) := by
  rw [forEachObj_map]
  rfl

/-- On the two renderings of the same logical people-also-ask entries, the
Serper loop produces exactly the SerpAPI loop's output with `Source` erased
(Serper's table never reads a source attribution). -/
theorem paaLoop_source_erased (l : List LogicalPaa) : ∀ (i : Nat),
    forEachObj serperPaaItem i (l.map renderSerperPaaJson) =
      (forEachObj serpapiPaaItem i (l.map renderSerpapiPaaJson)).map
        (fun x => { x with Source := "" }) := by
  induction l with
  | nil => intro i; rfl
  | cons p rest ih =>
      intro i
      simp only [List.map_cons, renderSerperPaaJson, renderSerpapiPaaJson,
        forEachObj]
      rw [ih (i + 1)]
      rfl

/-! ### Claim theorems -/

/-- C4: for every engine name and query, `NormalizeSearch`, `NormalizeNews`
and `NormalizeImages` return an error (and hence no result) whenever the
input `SearchResult` is nil, its `Data` is nil, or `Data` is not a keyed
mapping (array, scalar or null root); normalization never returns a partial
result in these cases. -/
theorem C4_nil_or_nonobject_root_errors (n : Normalizer) (q raw : String)
    (d : Json) (hd : d.isObj = false) :
    n.NormalizeSearch none q = .error .nilResultOrData ∧
    n.NormalizeSearch (some { Data := none, Raw := raw }) q = .error .nilResultOrData ∧
    n.NormalizeSearch (some { Data := some d, Raw := raw }) q = .error .unexpectedDataType ∧
    n.NormalizeNews none q = .error .nilResultOrData ∧
    n.NormalizeNews (some { Data := none, Raw := raw }) q = .error .nilResultOrData ∧
    n.NormalizeNews (some { Data := some d, Raw := raw }) q = .error .unexpectedDataType ∧
    n.NormalizeImages none q = .error .nilResultOrData ∧
    n.NormalizeImages (some { Data := none, Raw := raw }) q = .error .nilResultOrData ∧
    n.NormalizeImages (some { Data := some d, Raw := raw }) q = .error .unexpectedDataType := by
  refine ⟨rfl, rfl, ?_, rfl, rfl, ?_, rfl, rfl, ?_⟩ <;>
    cases d <;> first
      | rfl
      | simp [Json.isObj] at hd

/-- Witness for C4: the concrete scenario of spec §8, a JSON array root. -/
theorem C4_nil_or_nonobject_root_errors_witness :
    (Json.arr []).isObj = false ∧
    (NewNormalizer "serper").NormalizeSearch
        (some { Data := some (Json.arr []), Raw := "" }) "q" = .error .unexpectedDataType :=
  ⟨rfl, (C4_nil_or_nonobject_root_errors (NewNormalizer "serper") "q" "" (Json.arr []) rfl).2.2.1⟩

/-- C5: for every provider name outside {serper, serpapi} after lower-casing,
and every map-rooted input, all three normalization entry points return an
unsupported-engine error and no result. -/
theorem C5_unsupported_provider (name : String) (data : List (String × Json))
    (raw q : String) (h1 : strToLower name ≠ "serper")
    (h2 : strToLower name ≠ "serpapi") :
    (NewNormalizer name).NormalizeSearch
        (some { Data := some (Json.obj data), Raw := raw }) q
      = .error (.unsupportedEngine (strToLower name)) ∧
    (NewNormalizer name).NormalizeNews
        (some { Data := some (Json.obj data), Raw := raw }) q
      = .error (.unsupportedEngine (strToLower name)) ∧
    (NewNormalizer name).NormalizeImages
        (some { Data := some (Json.obj data), Raw := raw }) q
      = .error (.unsupportedEngine (strToLower name)) := by
  refine ⟨?_, ?_, ?_⟩ <;>
    simp [NewNormalizer, Normalizer.NormalizeSearch, Normalizer.NormalizeNews,
      Normalizer.NormalizeImages, h1, h2]

/-- Witness for C5 at the concrete provider name "bing". -/
theorem C5_unsupported_provider_witness :
    strToLower "bing" ≠ "serper" ∧ strToLower "bing" ≠ "serpapi" ∧
    (NewNormalizer "bing").NormalizeSearch
        (some { Data := some (Json.obj []), Raw := "" }) "q"
      = .error (.unsupportedEngine (strToLower "bing")) :=
  ⟨by decide, by decide,
    (C5_unsupported_provider "bing" [] "" "q" (by decide) (by decide)).1⟩

/-- C6: per-field extraction is best-effort and type-checked: `getString`
yields the empty string when the key is absent or its value is not a string,
and (for a map-rooted input to a supported engine) no element content can
make normalization fail. -/
theorem C6_best_effort_field_extraction (m : List (String × Json))
    (key : String) (data : List (String × Json)) (raw q : String) :
    (m.lookup key = none → getString m key = "") ∧
    (∀ v, m.lookup key = some v → (∀ s, v ≠ Json.str s) → getString m key = "") ∧
    (∃ out, (NewNormalizer "serper").NormalizeSearch
        (some { Data := some (Json.obj data), Raw := raw }) q = .ok out) ∧
    (∃ out, (NewNormalizer "serpapi").NormalizeSearch
        (some { Data := some (Json.obj data), Raw := raw }) q = .ok out) := by
  refine ⟨?_, ?_, ⟨_, NormalizeSearch_serper_ok data raw q⟩,
    ⟨_, NormalizeSearch_serpapi_ok data raw q⟩⟩
  · intro h
    simp [getString, h]
  · intro v hv hs
    cases v with
    | str s => exact absurd rfl (hs s)
    | num x => simp [getString, hv]
    | bool b => simp [getString, hv]
    | null => simp [getString, hv]
    | arr a => simp [getString, hv]
    | obj o => simp [getString, hv]

/-- Witness for C6: a key bound to a number yields the empty string, and a
malformed element does not abort normalization. -/
theorem C6_best_effort_field_extraction_witness :
    getString [("title", Json.num 7)] "title" = "" ∧
    (∃ out, (NewNormalizer "serper").NormalizeSearch
        (some { Data := some (Json.obj [("organic", Json.arr [Json.num 7])]), Raw := "" }) "q" = .ok out) :=
  ⟨(C6_best_effort_field_extraction [("title", Json.num 7)] "title" [] "" "q").2.1
      (Json.num 7) rfl (fun _ h => Json.noConfusion h),
    (C6_best_effort_field_extraction [] "t" [("organic", Json.arr [Json.num 7])] "" "q").2.2.1⟩

/-- C7: when the provider's search-parameters echo block is present as a keyed
mapping, the returned metadata's query, location, language and country are
taken from its `q`, `location`, `hl` and `gl` keys, overriding the caller's
query; when the block is absent, the metadata query is the caller's query. -/
theorem C7_search_params_echo_override (data : List (String × Json))
    (raw q : String) :
    ((∀ sp, data.lookup "searchParameters" = some (Json.obj sp) →
      ∃ out, (NewNormalizer "serper").NormalizeSearch
          (some { Data := some (Json.obj data), Raw := raw }) q = .ok out ∧
        out.SearchMetadata.Query = getString sp "q" ∧
        out.SearchMetadata.Location = getString sp "location" ∧
        out.SearchMetadata.Language = getString sp "hl" ∧
        out.SearchMetadata.Country = getString sp "gl") ∧
     (data.lookup "searchParameters" = none →
      ∃ out, (NewNormalizer "serper").NormalizeSearch
          (some { Data := some (Json.obj data), Raw := raw }) q = .ok out ∧
        out.SearchMetadata.Query = q)) ∧
    ((∀ sp, data.lookup "search_parameters" = some (Json.obj sp) →
      ∃ out, (NewNormalizer "serpapi").NormalizeSearch
          (some { Data := some (Json.obj data), Raw := raw }) q = .ok out ∧
        out.SearchMetadata.Query = getString sp "q" ∧
        out.SearchMetadata.Location = getString sp "location" ∧
        out.SearchMetadata.Language = getString sp "hl" ∧
        out.SearchMetadata.Country = getString sp "gl") ∧
     (data.lookup "search_parameters" = none →
      ∃ out, (NewNormalizer "serpapi").NormalizeSearch
          (some { Data := some (Json.obj data), Raw := raw }) q = .ok out ∧
        out.SearchMetadata.Query = q)) := by
  refine ⟨⟨?_, ?_⟩, ⟨?_, ?_⟩⟩
  · intro sp hsp
    refine ⟨_, NormalizeSearch_serper_ok data raw q, ?_⟩
    simp [normalizeSerperSearch_eq, objSel, hsp, overrideMetadata]
  · intro hnone
    refine ⟨_, NormalizeSearch_serper_ok data raw q, ?_⟩
    simp [normalizeSerperSearch_eq, objSel, hnone]
  · intro sp hsp
    refine ⟨_, NormalizeSearch_serpapi_ok data raw q, ?_⟩
    simp [normalizeSerpAPISearch_eq, objSel, hsp, overrideMetadata]
  · intro hnone
    refine ⟨_, NormalizeSearch_serpapi_ok data raw q, ?_⟩
    simp [normalizeSerpAPISearch_eq, objSel, hnone]

/-- Witness for C7: an echo block overriding the caller's query. -/
theorem C7_search_params_echo_override_witness :
    ([("searchParameters", Json.obj [("q", Json.str "real")])].lookup
        "searchParameters" = some (Json.obj [("q", Json.str "real")])) ∧
    ∃ out, (NewNormalizer "serper").NormalizeSearch
        (some { Data := some (Json.obj [("searchParameters", Json.obj [("q", Json.str "real")])]), Raw := "" })
        "caller" = .ok out ∧
      out.SearchMetadata.Query = getString [("q", Json.str "real")] "q" ∧
      out.SearchMetadata.Location = getString [("q", Json.str "real")] "location" ∧
      out.SearchMetadata.Language = getString [("q", Json.str "real")] "hl" ∧
      out.SearchMetadata.Country = getString [("q", Json.str "real")] "gl" :=
  ⟨rfl, (C7_search_params_echo_override
      [("searchParameters", Json.obj [("q", Json.str "real")])] "" "caller").1.1
      [("q", Json.str "real")] rfl⟩

/-- C10 (implicit): the echo override is unconditional per field — whenever
the echo block is present as a keyed mapping, all four metadata fields are
overwritten even for keys absent from the block, so a block lacking `q`
replaces the caller-supplied query with the empty string. -/
theorem C10_echo_override_unconditional (data sp : List (String × Json))
    (raw q : String) :
    ((data.lookup "searchParameters" = some (Json.obj sp) →
      ∃ out, (NewNormalizer "serper").NormalizeSearch
          (some { Data := some (Json.obj data), Raw := raw }) q = .ok out ∧
        (sp.lookup "q" = none → out.SearchMetadata.Query = "") ∧
        (sp.lookup "location" = none → out.SearchMetadata.Location = "") ∧
        (sp.lookup "hl" = none → out.SearchMetadata.Language = "") ∧
        (sp.lookup "gl" = none → out.SearchMetadata.Country = ""))) ∧
    ((data.lookup "search_parameters" = some (Json.obj sp) →
      ∃ out, (NewNormalizer "serpapi").NormalizeSearch
          (some { Data := some (Json.obj data), Raw := raw }) q = .ok out ∧
        (sp.lookup "q" = none → out.SearchMetadata.Query = "") ∧
        (sp.lookup "location" = none → out.SearchMetadata.Location = "") ∧
        (sp.lookup "hl" = none → out.SearchMetadata.Language = "") ∧
        (sp.lookup "gl" = none → out.SearchMetadata.Country = ""))) := by
  constructor
  · intro hsp
    refine ⟨_, NormalizeSearch_serper_ok data raw q, ?_, ?_, ?_, ?_⟩ <;>
      intro hkey <;>
      simp [normalizeSerperSearch_eq, objSel, hsp, overrideMetadata, getString, hkey]
  · intro hsp
    refine ⟨_, NormalizeSearch_serpapi_ok data raw q, ?_, ?_, ?_, ?_⟩ <;>
      intro hkey <;>
      simp [normalizeSerpAPISearch_eq, objSel, hsp, overrideMetadata, getString, hkey]

/-- Witness for C10: an echo block without a `q` key erases the caller-supplied
query. -/
theorem C10_echo_override_unconditional_witness :
    ([("searchParameters", Json.obj [("gl", Json.str "us")])].lookup
        "searchParameters" = some (Json.obj [("gl", Json.str "us")])) ∧
    ∃ out, (NewNormalizer "serper").NormalizeSearch
        (some { Data := some (Json.obj [("searchParameters", Json.obj [("gl", Json.str "us")])]), Raw := "" })
        "caller" = .ok out ∧
      (([("gl", Json.str "us")] : List (String × Json)).lookup "q" = none →
        out.SearchMetadata.Query = "") ∧
      (([("gl", Json.str "us")] : List (String × Json)).lookup "location" = none →
        out.SearchMetadata.Location = "") ∧
      (([("gl", Json.str "us")] : List (String × Json)).lookup "hl" = none →
        out.SearchMetadata.Language = "") ∧
      (([("gl", Json.str "us")] : List (String × Json)).lookup "gl" = none →
        out.SearchMetadata.Country = "") :=
  ⟨rfl, (C10_echo_override_unconditional
      [("searchParameters", Json.obj [("gl", Json.str "us")])]
      [("gl", Json.str "us")] "" "caller").1 rfl⟩

/-- C8: every successful normalization returns a result whose `Raw` field is
exactly the input `SearchResult`; the transform itself is a pure function in
this model, so it cannot mutate its input. -/
theorem C8_raw_backreference (n : Normalizer) (r : SearchResult) (q : String)
    (out : NormalizedSearchResult) :
    (n.NormalizeSearch (some r) q = .ok out → out.Raw = some r) ∧
    (n.NormalizeNews (some r) q = .ok out → out.Raw = some r) ∧
    (n.NormalizeImages (some r) q = .ok out → out.Raw = some r) := by
  obtain ⟨dataOpt, raw⟩ := r
  refine ⟨?_, ?_, ?_⟩
  · intro h
    cases dataOpt with
    | none => simp [Normalizer.NormalizeSearch] at h
    | some d =>
        cases d <;> simp [Normalizer.NormalizeSearch] at h
        case obj m =>
          by_cases h1 : n.engineName = "serper"
          · rw [if_pos h1] at h
            simp only [Except.ok.injEq] at h
            subst h
            simp [normalizeSerperSearch_eq]
          · rw [if_neg h1] at h
            by_cases h2 : n.engineName = "serpapi"
            · rw [if_pos h2] at h
              simp only [Except.ok.injEq] at h
              subst h
              simp [normalizeSerpAPISearch_eq]
            · rw [if_neg h2] at h
              exact absurd h (by simp)
  · intro h
    cases dataOpt with
    | none => simp [Normalizer.NormalizeNews] at h
    | some d =>
        cases d <;> simp [Normalizer.NormalizeNews] at h
        case obj m =>
          by_cases h1 : n.engineName = "serper"
          · rw [if_pos h1] at h
            simp only [Except.ok.injEq] at h
            subst h
            simp [normalizeSerperNews_eq]
          · rw [if_neg h1] at h
            by_cases h2 : n.engineName = "serpapi"
            · rw [if_pos h2] at h
              simp only [Except.ok.injEq] at h
              subst h
              simp [normalizeSerpAPINews_eq]
            · rw [if_neg h2] at h
              exact absurd h (by simp)
  · intro h
    cases dataOpt with
    | none => simp [Normalizer.NormalizeImages] at h
    | some d =>
        cases d <;> simp [Normalizer.NormalizeImages] at h
        case obj m =>
          by_cases h1 : n.engineName = "serper"
          · rw [if_pos h1] at h
            simp only [Except.ok.injEq] at h
            subst h
            simp [normalizeSerperImages_eq]
          · rw [if_neg h1] at h
            by_cases h2 : n.engineName = "serpapi"
            · rw [if_pos h2] at h
              simp only [Except.ok.injEq] at h
              subst h
              simp [normalizeSerpAPIImages_eq]
            · rw [if_neg h2] at h
              exact absurd h (by simp)

/-- Witness for C8 at a concrete input. -/
theorem C8_raw_backreference_witness :
    (normalizeSerperSearch []
        { SearchMetadata := { Engine := "serper", Query := "x" }
          Raw := some { Data := some (Json.obj []), Raw := "r" } }).Raw
      = some { Data := some (Json.obj []), Raw := "r" } :=
  (C8_raw_backreference (NewNormalizer "serper")
      { Data := some (Json.obj []), Raw := "r" } "x" _).1 rfl

/-- Counterexample to C3 as stated: a source array whose single element is not
a keyed mapping is skipped, so the output collection has 0 elements while the
source array has 1. -/
theorem C3_counterexample :
    ((NewNormalizer "serper").NormalizeSearch
        (some { Data := some (Json.obj [("organic", Json.arr [Json.str "x"])]), Raw := "" })
        "q").map (fun out => out.OrganicResults.length) = Except.ok 0 ∧
    [Json.str "x"].length = 1 :=
  ⟨rfl, rfl⟩

/-- C3 (amended): for every collection of both providers, the output length
equals the number of elements of the corresponding source array that are
keyed mappings (non-mapping elements are skipped); if the key is absent or
its value is not an array, the output collection is empty, and no error is
raised in any of these cases. -/
theorem C3_collection_lengths (data : List (String × Json)) (raw q : String) :
    (∃ out, (NewNormalizer "serper").NormalizeSearch
        (some { Data := some (Json.obj data), Raw := raw }) q = .ok out ∧
      out.OrganicResults.length = sourceObjCount data "organic" ∧
      out.RelatedSearches.length = sourceObjCount data "relatedSearches" ∧
      out.PeopleAlsoAsk.length = sourceObjCount data "peopleAlsoAsk") ∧
    (∃ out, (NewNormalizer "serper").NormalizeNews
        (some { Data := some (Json.obj data), Raw := raw }) q = .ok out ∧
      out.NewsResults.length = sourceObjCount data "news") ∧
    (∃ out, (NewNormalizer "serper").NormalizeImages
        (some { Data := some (Json.obj data), Raw := raw }) q = .ok out ∧
      out.ImageResults.length = sourceObjCount data "images") ∧
    (∃ out, (NewNormalizer "serpapi").NormalizeSearch
        (some { Data := some (Json.obj data), Raw := raw }) q = .ok out ∧
      out.OrganicResults.length = sourceObjCount data "organic_results" ∧
      out.RelatedSearches.length = sourceObjCount data "related_searches" ∧
      out.PeopleAlsoAsk.length = sourceObjCount data "related_questions") ∧
    (∃ out, (NewNormalizer "serpapi").NormalizeNews
        (some { Data := some (Json.obj data), Raw := raw }) q = .ok out ∧
      out.NewsResults.length = sourceObjCount data "news_results") ∧
    (∃ out, (NewNormalizer "serpapi").NormalizeImages
        (some { Data := some (Json.obj data), Raw := raw }) q = .ok out ∧
      out.ImageResults.length = sourceObjCount data "images_results") := by
  refine ⟨⟨_, NormalizeSearch_serper_ok data raw q, ?_, ?_, ?_⟩,
    ⟨_, NormalizeNews_serper_ok data raw q, ?_⟩,
    ⟨_, NormalizeImages_serper_ok data raw q, ?_⟩,
    ⟨_, NormalizeSearch_serpapi_ok data raw q, ?_, ?_, ?_⟩,
    ⟨_, NormalizeNews_serpapi_ok data raw q, ?_⟩,
    ⟨_, NormalizeImages_serpapi_ok data raw q, ?_⟩⟩ <;>
  simp [normalizeSerperSearch_eq, normalizeSerpAPISearch_eq,
    normalizeSerperNews_eq, normalizeSerpAPINews_eq,
    normalizeSerperImages_eq, normalizeSerpAPIImages_eq, arrSeg_length]

/-- Counterexample to C2 as stated: a skipped non-mapping element still
advances the loop index, so the single produced organic result carries
position 2, not the contiguous 1..N numbering. -/
theorem C2_counterexample :
    ((NewNormalizer "serper").NormalizeSearch
        (some { Data := some (Json.obj
          [("organic", Json.arr [Json.num 0, Json.obj []])]), Raw := "" })
        "q").map (fun out => out.OrganicResults.map OrganicResult.Position)
      = Except.ok [2] ∧
    ([2] : List Nat) ≠ List.range' 1 ([2] : List Nat).length :=
  ⟨rfl, by decide⟩

/-- C2 (amended): whenever every element of the ranked source array (organic,
news, image results, for either provider) is a keyed mapping, the output
`Position` fields are exactly `1..N`, 1-based and contiguous, in source
order, regardless of the elements' contents (any rank-like field included). -/
theorem C2_positions (data : List (String × Json)) (raw q : String)
    (items : List Json) (hobj : ∀ x ∈ items, x.isObj = true) :
    (data.lookup "organic" = some (Json.arr items) →
      ∃ out, (NewNormalizer "serper").NormalizeSearch
          (some { Data := some (Json.obj data), Raw := raw }) q = .ok out ∧
        out.OrganicResults.map OrganicResult.Position = List.range' 1 items.length) ∧
    (data.lookup "organic_results" = some (Json.arr items) →
      ∃ out, (NewNormalizer "serpapi").NormalizeSearch
          (some { Data := some (Json.obj data), Raw := raw }) q = .ok out ∧
        out.OrganicResults.map OrganicResult.Position = List.range' 1 items.length) ∧
    (data.lookup "news" = some (Json.arr items) →
      ∃ out, (NewNormalizer "serper").NormalizeNews
          (some { Data := some (Json.obj data), Raw := raw }) q = .ok out ∧
        out.NewsResults.map NewsResult.Position = List.range' 1 items.length) ∧
    (data.lookup "news_results" = some (Json.arr items) →
      ∃ out, (NewNormalizer "serpapi").NormalizeNews
          (some { Data := some (Json.obj data), Raw := raw }) q = .ok out ∧
        out.NewsResults.map NewsResult.Position = List.range' 1 items.length) ∧
    (data.lookup "images" = some (Json.arr items) →
      ∃ out, (NewNormalizer "serper").NormalizeImages
          (some { Data := some (Json.obj data), Raw := raw }) q = .ok out ∧
        out.ImageResults.map ImageResult.Position = List.range' 1 items.length) ∧
    (data.lookup "images_results" = some (Json.arr items) →
      ∃ out, (NewNormalizer "serpapi").NormalizeImages
          (some { Data := some (Json.obj data), Raw := raw }) q = .ok out ∧
        out.ImageResults.map ImageResult.Position = List.range' 1 items.length) := by
  have hpos : ∀ {α : Type} (mk : Nat → List (String × Json) → α)
      (pos : α → Nat), (∀ j m, pos (mk j m) = j + 1) →
      (forEachObj mk 0 items).map pos = List.range' 1 items.length := by
    intro α mk pos hmk
    simpa using forEachObj_map_position mk pos hmk 0 items hobj
  refine ⟨?_, ?_, ?_, ?_, ?_, ?_⟩ <;> intro hkey
  · exact ⟨_, NormalizeSearch_serper_ok data raw q, by
      simp [normalizeSerperSearch_eq, arrSeg, hkey,
        hpos serperOrganicItem OrganicResult.Position (fun _ _ => rfl)]⟩
  · exact ⟨_, NormalizeSearch_serpapi_ok data raw q, by
      simp [normalizeSerpAPISearch_eq, arrSeg, hkey,
        hpos serpapiOrganicItem OrganicResult.Position (fun _ _ => rfl)]⟩
  · exact ⟨_, NormalizeNews_serper_ok data raw q, by
      simp [normalizeSerperNews_eq, arrSeg, hkey,
        hpos serperNewsItem NewsResult.Position (fun _ _ => rfl)]⟩
  · exact ⟨_, NormalizeNews_serpapi_ok data raw q, by
      simp [normalizeSerpAPINews_eq, arrSeg, hkey,
        hpos serpapiNewsItem NewsResult.Position (fun _ _ => rfl)]⟩
  · exact ⟨_, NormalizeImages_serper_ok data raw q, by
      simp [normalizeSerperImages_eq, arrSeg, hkey,
        hpos serperImagesItem ImageResult.Position (fun _ _ => rfl)]⟩
  · exact ⟨_, NormalizeImages_serpapi_ok data raw q, by
      simp [normalizeSerpAPIImages_eq, arrSeg, hkey,
        hpos serpapiImagesItem ImageResult.Position (fun _ _ => rfl)]⟩

/-- Witness for C2 at a concrete two-element organic array whose elements even
carry misleading rank-like fields. -/
theorem C2_positions_witness :
    (∀ x ∈ [Json.obj [("position", Json.num 9)], Json.obj []], x.isObj = true) ∧
    ([("organic", Json.arr [Json.obj [("position", Json.num 9)], Json.obj []])].lookup
        "organic" = some (Json.arr [Json.obj [("position", Json.num 9)], Json.obj []])) ∧
    ∃ out, (NewNormalizer "serper").NormalizeSearch
        (some { Data := some (Json.obj
          [("organic", Json.arr [Json.obj [("position", Json.num 9)], Json.obj []])]), Raw := "" })
        "q" = .ok out ∧
      out.OrganicResults.map OrganicResult.Position
        = List.range' 1 ([Json.obj [("position", Json.num 9)], Json.obj []] : List Json).length :=
  ⟨by decide, rfl,
    (C2_positions [("organic", Json.arr [Json.obj [("position", Json.num 9)], Json.obj []])]
      "" "q" [Json.obj [("position", Json.num 9)], Json.obj []] (by decide)).1 rfl⟩

/-- Counterexample to C9 as stated: the registry wraps a Go map, whose
iteration order is unspecified, so enumeration may return the registered
names in an order other than insertion order — here, a possible `List`
output of a registry built by registering "a" then "b" is `["b", "a"]`. -/
theorem C9_counterexample :
    (registerAll NewRegistry
        [{ GetName := "a" }, { GetName := "b" }]).CanList ["b", "a"] ∧
    (["b", "a"] : List String) ≠ ["a", "b"] := by
  constructor
  · have hkeys : (registerAll NewRegistry
        [{ GetName := "a" }, { GetName := "b" }]).engines.map Prod.fst
          = ["a", "b"] := rfl
    rw [Registry.CanList, hkeys]
    exact List.Perm.swap "a" "b" []
  · decide

/-- C9 (amended): the registry is a name-keyed collection: after any sequence
of `Register` calls, `Get` returns exactly the engine most recently
registered under that exact name (and `none` otherwise), and every possible
enumeration returns each registered name exactly once — but in an
unspecified order, not necessarily insertion order. -/
theorem C9_registry_get_and_enumeration (es : List Engine) (name : String)
    (l : List String) :
    ((registerAll NewRegistry es).Get name = lastRegistered es name) ∧
    ((registerAll NewRegistry es).CanList l →
      (∀ a, a ∈ l ↔ (((registerAll NewRegistry es).Get a).isSome = true)) ∧
      l.Nodup) := by
  constructor
  · rw [Get_registerAll es NewRegistry name]
    cases lastRegistered es name with
    | none => rfl
    | some e => rfl
  · intro hl
    have hnodup : ((registerAll NewRegistry es).engines.map Prod.fst).Nodup :=
      nodup_keys_registerAll es NewRegistry (by simp [NewRegistry])
    constructor
    · intro a
      rw [hl.mem_iff]
      exact (lookup_isSome_iff_mem_keys _ a).symm
    · exact hl.nodup_iff.mpr hnodup

/-- Witness for C9: a two-engine registry where the second registration under
the same name wins, and a concrete enumeration. -/
theorem C9_registry_get_and_enumeration_witness :
    ((registerAll NewRegistry
        [{ GetName := "a", GetVersion := "1" },
         { GetName := "a", GetVersion := "2" }]).Get "a"
      = lastRegistered
          [{ GetName := "a", GetVersion := "1" },
           { GetName := "a", GetVersion := "2" }] "a") ∧
    ((∀ x, x ∈ (["a"] : List String) ↔
        (((registerAll NewRegistry
            [{ GetName := "a", GetVersion := "1" },
             { GetName := "a", GetVersion := "2" }]).Get x).isSome = true)) ∧
      (["a"] : List String).Nodup) :=
  ⟨(C9_registry_get_and_enumeration
      [{ GetName := "a", GetVersion := "1" }, { GetName := "a", GetVersion := "2" }]
      "a" ["a"]).1,
    (C9_registry_get_and_enumeration
      [{ GetName := "a", GetVersion := "1" }, { GetName := "a", GetVersion := "2" }]
      "a" ["a"]).2 (List.Perm.refl ["a"])⟩

/-- Counterexample to C1 as stated: the same logical answer box (with a
source attribution) rendered under each provider's convention yields
different `AnswerBox` values — the Serper table reads the `source` key, the
SerpAPI table does not — so the two results differ in a field other than
`SearchMetadata.Engine`. -/
theorem C1_counterexample :
    ((NewNormalizer "serper").NormalizeSearch
        (some { Data := some (Json.obj (renderSerperDoc
          { answerBox := some { title := "AB", source := "S" } })), Raw := "" })
        "q").toOption.map (fun out => out.AnswerBox)
      ≠
    ((NewNormalizer "serpapi").NormalizeSearch
        (some { Data := some (Json.obj (renderSerpapiDoc
          { answerBox := some { title := "AB", source := "S" } })), Raw := "" })
        "q").toOption.map (fun out => out.AnswerBox) := by
  decide

/-- C1 (amended): for every logical web-search content rendered under each
provider's own key/casing convention, `NormalizeSearch` with "serper" and
with "serpapi" produce results equal in every field except
`SearchMetadata.Engine`, the `Raw` back-reference (which holds each
provider's own input), and the attribution/link fields read by only one
mapping table: `AnswerBox.Source` (empty on the SerpAPI side),
`RelatedSearch.Link` and `PeopleAlsoAsk.Source` (empty on the Serper side). -/
theorem C1_cross_provider_equivalence (c : LogicalSearchContent)
    (q raw1 raw2 : String) :
    ∃ r1 r2,
      (NewNormalizer "serper").NormalizeSearch
          (some { Data := some (Json.obj (renderSerperDoc c)), Raw := raw1 }) q
        = .ok r1 ∧
      (NewNormalizer "serpapi").NormalizeSearch
          (some { Data := some (Json.obj (renderSerpapiDoc c)), Raw := raw2 }) q
        = .ok r2 ∧
      r1.OrganicResults = r2.OrganicResults ∧
      r1.KnowledgeGraph = r2.KnowledgeGraph ∧
      r2.AnswerBox = r1.AnswerBox.map (fun b => { b with Source := "" }) ∧
      r1.RelatedSearches = r2.RelatedSearches.map (fun x => { x with Link := "" }) ∧
      r1.PeopleAlsoAsk = r2.PeopleAlsoAsk.map (fun x => { x with Source := "" }) ∧
      r1.SearchMetadata.Engine = "serper" ∧
      r2.SearchMetadata = { r1.SearchMetadata with Engine := "serpapi" } ∧
      r1.NewsResults = r2.NewsResults ∧
      r1.ImageResults = r2.ImageResults ∧
      r1.VideoResults = r2.VideoResults ∧
      r1.PlaceResults = r2.PlaceResults ∧
      r1.ShoppingResults = r2.ShoppingResults ∧
      r1.ScholarResults = r2.ScholarResults ∧
      r1.Suggestions = r2.Suggestions := by
  obtain ⟨org, ab, kg, rs, paa, sp⟩ := c
  refine ⟨_, _, NormalizeSearch_serper_ok _ raw1 q,
    NormalizeSearch_serpapi_ok _ raw2 q, ?_⟩
  rcases ab with _ | b <;> rcases kg with _ | k <;> rcases sp with _ | s <;>
    exact ⟨rfl, rfl, rfl, relatedLoop_link_erased _ 0,
      paaLoop_source_erased paa 0, rfl, rfl, rfl, rfl, rfl, rfl, rfl, rfl, rfl⟩

end Metasearch
